import Mathlib

/-!
Shallow embedding of `src/utils/gephi_restructure.py`.

The module is a linear pipeline over a PostgreSQL database:
`db_connect` opens a connection from a config dict, `db_pull` runs a
three-way inner join over the taxonomy tables, `gephi_restructure`
turns the resulting pandas DataFrame into a node table and an edge
table, and `db_push` inserts both into the Gephi tables inside one
transaction.

Python-level behaviour that the source relies on is modelled explicitly:

* A pandas `DataFrame` is a list of column names plus a list of rows;
  `df['c']` raises `KeyError` when column `c` is absent.
  `pd.DataFrame(data)` built from a list of dicts takes its columns from
  the keys of the dicts, so for an empty list the frame has NO columns
  (`pd.DataFrame([])` is 0 rows x 0 columns).
* `psycopg2` binds query parameters with `%`-style string formatting:
  when the statement has fewer `%s` placeholders than supplied
  parameters, `cursor.execute` raises `TypeError` ("not all arguments
  converted during string formatting"), which is NOT a subclass of
  `psycopg2.Error`; a genuine database failure raises `psycopg2.Error`.
* Exceptions are modelled with `Except`; `except psycopg2.Error` in the
  source catches exactly the `pgError` constructor below and lets every
  other constructor propagate.
-/

deriving instance DecidableEq for Except

namespace Gephi

/-- Python exceptions that the pipeline can raise or catch.  Only
`pgError` models `psycopg2.Error`; the others are builtin Python
exceptions that no `except psycopg2.Error` clause catches. -/
inductive PyErr where
  | keyError (k : String)
  | typeError (msg : String)
  | indexError (msg : String)
  | pgError (msg : String)
deriving DecidableEq, Repr

/-- `isPgError e = true` iff `e` is a `psycopg2.Error`, i.e. iff an
`except psycopg2.Error` clause catches `e`. -/
def isPgError : PyErr → Bool
  | PyErr.pgError _ => true
  | _ => false

/-- A pandas `DataFrame`: named columns over string-valued rows. -/
structure DataFrame where
  cols : List String
  rows : List (List String)
deriving DecidableEq, Repr

/-- `df['c']`: the whole column, or `KeyError` when absent
(pandas raises `KeyError` for a missing column label). -/
def getCol (df : DataFrame) (c : String) : Except PyErr (List String) :=
  match df.cols.findIdx? (fun x => x == c) with
  | some i => Except.ok (df.rows.map (fun r => r.getD i ""))
  | none => Except.error (PyErr.keyError c)

/-- `row['c']` for one row of `df` during `df.iterrows()`. -/
def rowVal (df : DataFrame) (r : List String) (c : String) : Except PyErr String :=
  match df.cols.findIdx? (fun x => x == c) with
  | some i => Except.ok (r.getD i "")
  | none => Except.error (PyErr.keyError c)

/-- `pd.DataFrame(data)` for `data` a list of dicts (as built in
`db_pull`): the columns are the dict keys in order of first appearance,
so an empty `data` yields a frame with no columns at all. -/
def dfOfRecords (recs : List (List (String × String))) : DataFrame :=
  let cols := (recs.flatMap (fun r => r.map Prod.fst)).dedup
  ⟨cols, recs.map (fun r => cols.map (fun c => (r.lookup c).getD ""))⟩

/-- One row of the taxonomy extraction
(`{SubTopic: string, Topic: string, MacroTopic: string}`). -/
structure TaxonomyRow where
  subTopic : String
  topic : String
  macroTopic : String
deriving DecidableEq, Repr

/-- A taxonomy DataFrame with the three columns of the `db_pull` query,
in the query's SELECT order. -/
def mkTaxonomyDF (rows : List TaxonomyRow) : DataFrame :=
  ⟨["SubTopic", "Topic", "MacroTopic"],
   rows.map (fun r => [r.subTopic, r.topic, r.macroTopic])⟩

/-- The edge-building loop of `gephi_restructure` (lines 157-164): for
each row, append `(MacroTopic, Topic, 'undirected')` and then
`(Topic, SubTopic, 'undirected')`. -/
def edgeLoop (df : DataFrame) : List (List String) → Except PyErr (List (List String))
  | [] => Except.ok []
  | r :: rest => do
    let s1 ← rowVal df r "MacroTopic"
    let t1 ← rowVal df r "Topic"
    let s2 ← rowVal df r "Topic"
    let t2 ← rowVal df r "SubTopic"
    let tail ← edgeLoop df rest
    Except.ok ([s1, t1, "undirected"] :: [s2, t2, "undirected"] :: tail)

/-- `gephi_restructure(df)` (lines 143-166):
`unique_nodes = set(df['SubTopic']) | set(df['Topic']) | set(df['MacroTopic'])`,
`nodes_df = pd.DataFrame(list(unique_nodes), columns=['nodeLabel'])`,
then the per-row edge loop.  Python's `set` iterates in an unspecified
order; it is modelled by `List.dedup` (first occurrences kept), which
agrees with the set on membership and cardinality. -/
def gephi_restructure (df : DataFrame) : Except PyErr (DataFrame × DataFrame) := do
  let sub ← getCol df "SubTopic"
  let top ← getCol df "Topic"
  let mac ← getCol df "MacroTopic"
  let uniqueNodes := (sub ++ top ++ mac).dedup
  let nodesDf : DataFrame := ⟨["nodeLabel"], uniqueNodes.map (fun x => [x])⟩
  let edgeRows ← edgeLoop df df.rows
  Except.ok (nodesDf, ⟨["Source", "Target", "Type"], edgeRows⟩)

/-- The labels column of a nodes DataFrame (its single `nodeLabel`
column). -/
def labelsOf (nodes : DataFrame) : List String :=
  nodes.rows.map (fun r => r.getD 0 "")

/-- All `3N` taxonomy values, across rows and columns. -/
def allVals (rows : List TaxonomyRow) : List String :=
  rows.map TaxonomyRow.subTopic ++ rows.map TaxonomyRow.topic ++
    rows.map TaxonomyRow.macroTopic

/-! ### The database side: `db_pull` -/

/-- A row of the `qnaSubtopic(id, name, topicid, Status)` table. -/
structure SubRow where
  id : Nat
  name : String
  topicid : Nat
  status : Int
deriving DecidableEq, Repr

/-- A row of the `Topic(id, name, macrotopicid, Status)` table. -/
structure TopicRow where
  id : Nat
  name : String
  macrotopicid : Nat
  status : Int
deriving DecidableEq, Repr

/-- A row of the `Macrotopic(id, name, Status)` table. -/
structure MacroRow where
  id : Nat
  name : String
  status : Int
deriving DecidableEq, Repr

/-- The three taxonomy input tables. -/
structure Database where
  subs : List SubRow
  topics : List TopicRow
  macros : List MacroRow
deriving DecidableEq, Repr

/-- Relational semantics of the `db_pull` SQL (lines 72-85): the
three-way inner join `qnaSubtopic s JOIN Topic t ON s.topicid = t.id
JOIN Macrotopic m ON t.macrotopicid = m.id` filtered by
`s.Status = 0 AND t.Status = 0 AND m.Status = 0`. -/
def pullTriples (db : Database) : List (SubRow × TopicRow × MacroRow) :=
  db.subs.flatMap (fun s =>
    db.topics.flatMap (fun t =>
      db.macros.flatMap (fun m =>
        if s.topicid = t.id ∧ t.macrotopicid = m.id ∧
            s.status = 0 ∧ t.status = 0 ∧ m.status = 0 then
          [(s, t, m)]
        else [])))

/-- The `db_pull` result rows as the list of dicts built on line 92,
keyed by the SELECT aliases `SubTopic`, `Topic`, `MacroTopic`. -/
def pullRecords (db : Database) : List (List (String × String)) :=
  (pullTriples db).map (fun x =>
    [("SubTopic", x.1.name), ("Topic", x.2.1.name), ("MacroTopic", x.2.2.name)])

/-- `db_pull` (lines 66-101), successful-query path: the DataFrame
`pd.DataFrame(data)` built from the list of result dicts.  (On a
`psycopg2.Error` the Python function returns `None` instead; the claims
here concern the successful path.) -/
def db_pull (db : Database) : DataFrame :=
  dfOfRecords (pullRecords db)

/-! ### The database side: `db_push`

A statement is sent to the server as a template plus positional
parameters.  `psycopg2` client-side binding: with more parameters than
`%s` placeholders `cursor.execute` raises
`TypeError("not all arguments converted during string formatting")`;
with fewer it raises `IndexError`; neither is a `psycopg2.Error`.
Server-side failures are a `psycopg2.Error` and are modelled by the
`fail` oracle, which says whether the database rejects a given
statement. -/

/-- A parameterized SQL statement as executed by the cursor. -/
structure Stmt where
  sql : String
  params : List String
deriving DecidableEq, Repr

/-- Count the `%s` placeholders of a template. -/
def countPS : List Char → Nat
  | '%' :: 's' :: rest => countPS rest + 1
  | _ :: rest => countPS rest
  | [] => 0

/-- Number of `%s` placeholders in a statement template. -/
def countPlaceholders (s : String) : Nat := countPS s.data

/-- The node insert template of line 120. -/
def insertNodeSql : String := "INSERT INTO GephiNode (nodeLabel) VALUES (%s);"

/-- The edge insert template of line 124, verbatim: it names three
columns but has only two `%s` placeholders. -/
def insertEdgeSql : String := "INSERT INTO GephiEdges (source, target, type) VALUES (%s, %s);"

/-- A connection with its transaction state: `committed` statements are
visible to a subsequent read, `pending` statements are written in the
open transaction but not yet committed. -/
structure PgConn where
  committed : List Stmt
  pending : List Stmt
deriving DecidableEq, Repr

/-- `cur.execute(sql, params)`: client-side parameter binding first
(arity errors are Python `TypeError`/`IndexError`), then the server
either rejects the statement (`psycopg2.Error`, per the `fail` oracle)
or appends it to the open transaction. -/
def execute (fail : Stmt → Bool) (conn : PgConn) (sql : String) (ps : List String) :
    Except PyErr PgConn :=
  if countPlaceholders sql < ps.length then
    Except.error (PyErr.typeError "not all arguments converted during string formatting")
  else if ps.length < countPlaceholders sql then
    Except.error (PyErr.indexError "tuple index out of range")
  else if fail ⟨sql, ps⟩ then
    Except.error (PyErr.pgError "insert failed")
  else
    Except.ok { conn with pending := conn.pending ++ [⟨sql, ps⟩] }

/-- `conn.commit()`: the pending statements become visible. -/
def commit (conn : PgConn) : PgConn :=
  ⟨conn.committed ++ conn.pending, []⟩

/-- What a subsequent read (a new transaction) sees on this connection. -/
def readCommitted (conn : PgConn) : List Stmt :=
  conn.committed

/-- The statement built for one nodes row (line 120):
`("INSERT INTO GephiNode (nodeLabel) VALUES (%s);", (row['nodeLabel'],))`. -/
def nodeStmt (dfNodes : DataFrame) (r : List String) : Except PyErr Stmt := do
  let v ← rowVal dfNodes r "nodeLabel"
  Except.ok ⟨insertNodeSql, [v]⟩

/-- The statement built for one edges row (line 124): the two-placeholder
template with the three parameters `(row['Source'], row['Target'], row['Type'])`. -/
def edgeStmt (dfEdges : DataFrame) (r : List String) : Except PyErr Stmt := do
  let s ← rowVal dfEdges r "Source"
  let t ← rowVal dfEdges r "Target"
  let ty ← rowVal dfEdges r "Type"
  Except.ok ⟨insertEdgeSql, [s, t, ty]⟩

/-- One of the two insert loops of `db_push`: execute the statement of
each row in order, stopping at the first raised exception (which leaves
the connection state as it was just before the failing statement). -/
def pushLoop (fail : Stmt → Bool) (mk : List String → Except PyErr Stmt) :
    PgConn → List (List String) → PgConn × Option PyErr
  | conn, [] => (conn, none)
  | conn, r :: rest =>
    match mk r with
    | Except.error e => (conn, some e)
    | Except.ok st =>
      match execute fail conn st.sql st.params with
      | Except.error e => (conn, some e)
      | Except.ok c2 => pushLoop fail mk c2 rest

/-- `db_push(conn, df_nodes, df_edges)` (lines 112-133): insert every
nodes row, then every edges row, then `conn.commit()` and return `True`.
The `except psycopg2.Error` clause turns a database error into the
return value `False`; any other exception propagates to the caller
(`Except.error`).  The final connection state is returned alongside. -/
def db_push (fail : Stmt → Bool) (conn : PgConn) (dfNodes dfEdges : DataFrame) :
    PgConn × Except PyErr Bool :=
  match pushLoop fail (nodeStmt dfNodes) conn dfNodes.rows with
  | (c1, some e) => (c1, if isPgError e then Except.ok false else Except.error e)
  | (c1, none) =>
    match pushLoop fail (edgeStmt dfEdges) c1 dfEdges.rows with
    | (c2, some e) => (c2, if isPgError e then Except.ok false else Except.error e)
    | (c2, none) => (commit c2, Except.ok true)

/-- "Insert `r` succeeds": the statement for `r` is built without a
lookup error, its parameter count matches its placeholders, and the
database accepts it.  (`execute` succeeds on a statement independently
of the connection state, so this is a property of the row alone.) -/
def insertOk (fail : Stmt → Bool) (mk : List String → Except PyErr Stmt)
    (r : List String) : Prop :=
  ∃ st, mk r = Except.ok st ∧ countPlaceholders st.sql = st.params.length ∧
    fail st = false

/-! ### `db_connect` -/

/-- `db_connect(db_params)` (lines 46-63).  `connect` models
`psycopg2.connect`: given the five configuration values it either
returns an open connection handle (`Except.ok`) or raises a
`psycopg2.Error` (`Except.error msg`).  The five dict subscripts are
evaluated inside the `try`, but a missing key raises `KeyError`, which
`except psycopg2.Error` does not catch, so it propagates; a caught
connection error yields the return value `None`. -/
def db_connect (connect : String → String → String → String → String → Except String Nat)
    (db_params : List (String × String)) : Except PyErr (Option Nat) :=
  match db_params.lookup "ENDPOINT" with
  | none => Except.error (PyErr.keyError "ENDPOINT")
  | some host =>
    match db_params.lookup "PORT" with
    | none => Except.error (PyErr.keyError "PORT")
    | some port =>
      match db_params.lookup "DBNAME" with
      | none => Except.error (PyErr.keyError "DBNAME")
      | some dbname =>
        match db_params.lookup "USER" with
        | none => Except.error (PyErr.keyError "USER")
        | some user =>
          match db_params.lookup "PASSWORD" with
          | none => Except.error (PyErr.keyError "PASSWORD")
          | some password =>
            match connect host port dbname user password with
            | Except.ok c => Except.ok (some c)
            | Except.error _ => Except.ok none

/-! ### Concrete instances used to evaluate the pipeline -/

/-- The worked example of the spec:
`[{Sub:"A",Topic:"B",Macro:"C"}, {Sub:"D",Topic:"B",Macro:"C"}]`. -/
def exRows : List TaxonomyRow :=
  [⟨"A", "B", "C"⟩, ⟨"D", "B", "C"⟩]

/-- A database whose only subtopic chain goes through a retired topic
(`Topic.Status = 1`) while the subtopic and macrotopic are active. -/
def exDb : Database :=
  ⟨[⟨1, "sub", 1, 0⟩], [⟨1, "top", 1, 1⟩], [⟨1, "mac", 0⟩]⟩

/-- An oracle for a database that accepts every statement. -/
def noFail : Stmt → Bool := fun _ => false

/-- A fresh connection: empty store, no open transaction. -/
def conn0 : PgConn := ⟨[], []⟩

/-- A one-row nodes table, as `gephi_restructure` shapes it. -/
def exNodesDf : DataFrame := ⟨["nodeLabel"], [["A"]]⟩

/-- A one-row edges table, as `gephi_restructure` shapes it. -/
def exEdgesDf : DataFrame := ⟨["Source", "Target", "Type"], [["C", "B", "undirected"]]⟩

/-- A `psycopg2.connect` that always succeeds with handle `1`. -/
def connectOk : String → String → String → String → String → Except String Nat :=
  fun _ _ _ _ _ => Except.ok 1

/-- A `psycopg2.connect` that always raises a `psycopg2.Error`. -/
def connectRefused : String → String → String → String → String → Except String Nat :=
  fun _ _ _ _ _ => Except.error "connection refused"

/-- A configuration supplying all five required keys. -/
def exParams : List (String × String) :=
  [("ENDPOINT", "h"), ("PORT", "5432"), ("DBNAME", "db"), ("USER", "u"), ("PASSWORD", "p")]

/-- The node table `gephi_restructure` produces on `exRows`. -/
def exNodesOut : DataFrame :=
  ⟨["nodeLabel"], [["A"], ["D"], ["B"], ["C"]]⟩

/-- The edge table `gephi_restructure` produces on `exRows`. -/
def exEdgesOut : DataFrame :=
  ⟨["Source", "Target", "Type"],
   [["C", "B", "undirected"], ["B", "A", "undirected"],
    ["C", "B", "undirected"], ["B", "D", "undirected"]]⟩

/-! ## Helper lemmas -/

theorem bindOk {ε α β : Type} (a : α) (f : α → Except ε β) :
    (Except.ok a : Except ε α) >>= f = f a := rfl

theorem getCol_mk_subTopic (rows : List TaxonomyRow) :
    getCol (mkTaxonomyDF rows) "SubTopic" = Except.ok (rows.map TaxonomyRow.subTopic) := by
  show Except.ok ((rows.map fun r => [r.subTopic, r.topic, r.macroTopic]).map fun r =>
    r.getD 0 "") = _
  rw [List.map_map]
  rfl

theorem getCol_mk_topic (rows : List TaxonomyRow) :
    getCol (mkTaxonomyDF rows) "Topic" = Except.ok (rows.map TaxonomyRow.topic) := by
  show Except.ok ((rows.map fun r => [r.subTopic, r.topic, r.macroTopic]).map fun r =>
    r.getD 1 "") = _
  rw [List.map_map]
  rfl

theorem getCol_mk_macroTopic (rows : List TaxonomyRow) :
    getCol (mkTaxonomyDF rows) "MacroTopic" = Except.ok (rows.map TaxonomyRow.macroTopic) := by
  show Except.ok ((rows.map fun r => [r.subTopic, r.topic, r.macroTopic]).map fun r =>
    r.getD 2 "") = _
  rw [List.map_map]
  rfl

theorem edgeLoop_mk (rows l : List TaxonomyRow) :
    edgeLoop (mkTaxonomyDF rows) (l.map fun r => [r.subTopic, r.topic, r.macroTopic]) =
      Except.ok (l.flatMap fun r =>
        [[r.macroTopic, r.topic, "undirected"], [r.topic, r.subTopic, "undirected"]]) := by
  induction l with
  | nil => rfl
  | cons r l ih =>
    rw [List.map_cons]
    have h1 : edgeLoop (mkTaxonomyDF rows)
        ([r.subTopic, r.topic, r.macroTopic] :: l.map fun r =>
          [r.subTopic, r.topic, r.macroTopic]) =
        (edgeLoop (mkTaxonomyDF rows) (l.map fun r =>
          [r.subTopic, r.topic, r.macroTopic])) >>= (fun tail =>
            Except.ok ([r.macroTopic, r.topic, "undirected"] ::
              [r.topic, r.subTopic, "undirected"] :: tail)) := rfl
    rw [h1, ih, bindOk, List.flatMap_cons]
    rfl

/-- Evaluating `gephi_restructure` on a taxonomy DataFrame built from a
row list: the nodes are the deduplicated `3N` values, the edges are the
two generated records per row, in input order. -/
theorem gephi_restructure_mk (rows : List TaxonomyRow) :
    gephi_restructure (mkTaxonomyDF rows) = Except.ok
      (⟨["nodeLabel"], (allVals rows).dedup.map fun x => [x]⟩,
       ⟨["Source", "Target", "Type"], rows.flatMap fun r =>
         [[r.macroTopic, r.topic, "undirected"], [r.topic, r.subTopic, "undirected"]]⟩) := by
  have h1 : gephi_restructure (mkTaxonomyDF rows) =
      (edgeLoop (mkTaxonomyDF rows) (rows.map fun r =>
        [r.subTopic, r.topic, r.macroTopic])) >>= (fun edgeRows =>
        Except.ok
          (⟨["nodeLabel"],
            (((rows.map fun r => [r.subTopic, r.topic, r.macroTopic]).map fun r =>
                r.getD 0 "") ++
             ((rows.map fun r => [r.subTopic, r.topic, r.macroTopic]).map fun r =>
                r.getD 1 "") ++
             ((rows.map fun r => [r.subTopic, r.topic, r.macroTopic]).map fun r =>
                r.getD 2 "")).dedup.map fun x => [x]⟩,
           ⟨["Source", "Target", "Type"], edgeRows⟩)) := rfl
  rw [h1, edgeLoop_mk, bindOk]
  simp only [List.map_map]
  rfl

theorem length_flatMap_pairs (rows : List TaxonomyRow) :
    (rows.flatMap fun r =>
      [[r.macroTopic, r.topic, "undirected"], [r.topic, r.subTopic, "undirected"]]).length =
      2 * rows.length := by
  induction rows with
  | nil => rfl
  | cons r l ih =>
    rw [List.flatMap_cons, List.length_append, ih]
    show 2 + 2 * l.length = 2 * (r :: l).length
    rw [List.length_cons]
    omega

theorem allVals_length (rows : List TaxonomyRow) :
    (allVals rows).length = 3 * rows.length := by
  simp only [allVals, List.length_append, List.length_map]
  omega

/-- Full characterization of `execute`: it succeeds exactly on an
arity-matched statement that the database accepts, and then appends the
statement to the open transaction. -/
theorem execute_eq (fail : Stmt → Bool) (conn : PgConn) (sql : String) (ps : List String) :
    (countPlaceholders sql = ps.length ∧ fail ⟨sql, ps⟩ = false →
      execute fail conn sql ps =
        Except.ok { conn with pending := conn.pending ++ [⟨sql, ps⟩] }) ∧
    (∀ c2, execute fail conn sql ps = Except.ok c2 →
      countPlaceholders sql = ps.length ∧ fail ⟨sql, ps⟩ = false ∧
      c2 = { conn with pending := conn.pending ++ [⟨sql, ps⟩] }) := by
  unfold execute
  constructor
  · rintro ⟨h1, h2⟩
    rw [if_neg (by omega), if_neg (by omega), if_neg (by simp [h2])]
  · intro c2 h
    split at h
    · exact Except.noConfusion h
    · split at h
      · exact Except.noConfusion h
      · split at h
        · exact Except.noConfusion h
        · rename_i h1 h2 h3
          injection h with h4
          refine ⟨by omega, by simpa using h3, h4.symm⟩

theorem execute_committed (fail : Stmt → Bool) (conn : PgConn) (sql : String)
    (ps : List String) (c2 : PgConn) (h : execute fail conn sql ps = Except.ok c2) :
    c2.committed = conn.committed := by
  obtain ⟨-, -, h3⟩ := (execute_eq fail conn sql ps).2 c2 h
  rw [h3]

/-- The insert loops never commit: the committed store is untouched. -/
theorem pushLoop_committed (fail : Stmt → Bool) (mk : List String → Except PyErr Stmt) :
    ∀ (l : List (List String)) (conn : PgConn),
      (pushLoop fail mk conn l).1.committed = conn.committed := by
  intro l
  induction l with
  | nil => intro conn; rfl
  | cons r rest ih =>
    intro conn
    simp only [pushLoop]
    split
    · rfl
    · rename_i st hmk
      split
      · rfl
      · rename_i c2 hex
        rw [ih c2, execute_committed fail conn st.sql st.params c2 hex]

/-- An insert loop runs to the end without an exception iff the insert
of every row succeeds (`execute` accepts a statement independently of
the connection state). -/
theorem pushLoop_none_iff (fail : Stmt → Bool) (mk : List String → Except PyErr Stmt) :
    ∀ (l : List (List String)) (conn : PgConn),
      (pushLoop fail mk conn l).2 = none ↔ ∀ r ∈ l, insertOk fail mk r := by
  intro l
  induction l with
  | nil => intro conn; simp [pushLoop]
  | cons r rest ih =>
    intro conn
    simp only [pushLoop]
    split
    · rename_i e hmk
      simp [hmk, List.forall_mem_cons, insertOk]
    · rename_i st hmk
      split
      · rename_i e hex
        simp only [List.forall_mem_cons]
        constructor
        · intro h; exact Option.noConfusion h
        · rintro ⟨⟨st2, hst2, harity, hfail⟩, -⟩
          rw [hmk] at hst2
          injection hst2 with hst2
          subst hst2
          rw [(execute_eq fail conn st.sql st.params).1 ⟨harity, hfail⟩] at hex
          exact Except.noConfusion hex
      · rename_i c2 hex
        rw [ih c2]
        simp only [List.forall_mem_cons]
        have hok : insertOk fail mk r := by
          obtain ⟨h1, h2, -⟩ := (execute_eq fail conn st.sql st.params).2 c2 hex
          exact ⟨st, hmk, h1, h2⟩
        constructor
        · intro h; exact ⟨hok, h⟩
        · rintro ⟨-, h⟩; exact h

/-- Membership in the joined result: a triple is produced exactly when
it comes from the three tables, satisfies both join conditions and all
three status filters. -/
theorem mem_pullTriples (db : Database) (s : SubRow) (t : TopicRow) (m : MacroRow) :
    (s, t, m) ∈ pullTriples db ↔
      s ∈ db.subs ∧ t ∈ db.topics ∧ m ∈ db.macros ∧
      s.topicid = t.id ∧ t.macrotopicid = m.id ∧
      s.status = 0 ∧ t.status = 0 ∧ m.status = 0 := by
  simp only [pullTriples, List.mem_flatMap]
  constructor
  · rintro ⟨s2, hs2, t2, ht2, m2, hm2, hmem⟩
    split at hmem
    · rename_i hc
      simp only [List.mem_singleton, Prod.mk.injEq] at hmem
      obtain ⟨rfl, rfl, rfl⟩ := hmem
      exact ⟨hs2, ht2, hm2, hc.1, hc.2.1, hc.2.2.1, hc.2.2.2.1, hc.2.2.2.2⟩
    · exact absurd hmem (List.not_mem_nil _)
  · rintro ⟨hs, ht, hm, h1, h2, h3, h4, h5⟩
    refine ⟨s, hs, t, ht, m, hm, ?_⟩
    rw [if_pos ⟨h1, h2, h3, h4, h5⟩]
    exact List.mem_singleton_self _

/-! ## Claim theorems -/

/-- C1: `db_push` returns `True` — and hence commits — exactly when
every node insert and every edge insert succeeds; in every run that does
not return `True` (a caught database error returning `False`, or a raised
exception) the committed store is unchanged, so a subsequent read sees no
partial results from that run; and when an insertion failure is a
database error (`psycopg2.Error`), `db_push` returns `False`. -/
theorem db_push_transactional (fail : Stmt → Bool) (conn : PgConn) (dfN dfE : DataFrame) :
    ((db_push fail conn dfN dfE).2 = Except.ok true ↔
      ((∀ r ∈ dfN.rows, insertOk fail (nodeStmt dfN) r) ∧
       (∀ r ∈ dfE.rows, insertOk fail (edgeStmt dfE) r))) ∧
    ((db_push fail conn dfN dfE).2 ≠ Except.ok true →
      readCommitted (db_push fail conn dfN dfE).1 = readCommitted conn) ∧
    (∀ e : PyErr, isPgError e = true →
      ((pushLoop fail (nodeStmt dfN) conn dfN.rows).2 = some e ∨
       ((pushLoop fail (nodeStmt dfN) conn dfN.rows).2 = none ∧
        (pushLoop fail (edgeStmt dfE)
          (pushLoop fail (nodeStmt dfN) conn dfN.rows).1 dfE.rows).2 = some e)) →
      (db_push fail conn dfN dfE).2 = Except.ok false) := by
  rcases hn : pushLoop fail (nodeStmt dfN) conn dfN.rows with ⟨c1, e1⟩
  have hcomm1 : c1.committed = conn.committed := by
    have h := pushLoop_committed fail (nodeStmt dfN) dfN.rows conn
    rw [hn] at h
    exact h
  cases e1 with
  | some e =>
    have hpush : db_push fail conn dfN dfE =
        (c1, if isPgError e then Except.ok false else Except.error e) := by
      simp only [db_push, hn]
    have hnotall : ¬ (∀ r ∈ dfN.rows, insertOk fail (nodeStmt dfN) r) := by
      intro hN
      have h := (pushLoop_none_iff fail (nodeStmt dfN) dfN.rows conn).2 hN
      rw [hn] at h
      exact Option.noConfusion (show (some e : Option PyErr) = none from h)
    refine ⟨?_, ?_, ?_⟩
    · rw [hpush]
      constructor
      · intro h
        by_cases hpg : isPgError e
        · rw [if_pos hpg] at h
          exact absurd (show (Except.ok false : Except PyErr Bool) = Except.ok true from h)
            (by simp)
        · rw [if_neg hpg] at h
          exact Except.noConfusion (show (Except.error e : Except PyErr Bool) = Except.ok true from h)
      · rintro ⟨hN, -⟩
        exact absurd hN hnotall
    · intro _
      rw [hpush]
      exact hcomm1
    · intro e2 hpg hdisj
      rcases hdisj with h | ⟨hnone, -⟩
      · have h2 : (some e : Option PyErr) = some e2 := h
        injection h2 with h3
        subst h3
        rw [hpush]
        simp [hpg]
      · exact Option.noConfusion (show (some e : Option PyErr) = none from hnone)
  | none =>
    rcases he : pushLoop fail (edgeStmt dfE) c1 dfE.rows with ⟨c2, e2⟩
    have hcomm2 : c2.committed = c1.committed := by
      have h := pushLoop_committed fail (edgeStmt dfE) dfE.rows c1
      rw [he] at h
      exact h
    have hNall : ∀ r ∈ dfN.rows, insertOk fail (nodeStmt dfN) r := by
      apply (pushLoop_none_iff fail (nodeStmt dfN) dfN.rows conn).1
      rw [hn]
    cases e2 with
    | some e =>
      have hpush : db_push fail conn dfN dfE =
          (c2, if isPgError e then Except.ok false else Except.error e) := by
        simp only [db_push, hn, he]
      have hnotall : ¬ (∀ r ∈ dfE.rows, insertOk fail (edgeStmt dfE) r) := by
        intro hE
        have h := (pushLoop_none_iff fail (edgeStmt dfE) dfE.rows c1).2 hE
        rw [he] at h
        exact Option.noConfusion (show (some e : Option PyErr) = none from h)
      refine ⟨?_, ?_, ?_⟩
      · rw [hpush]
        constructor
        · intro h
          by_cases hpg : isPgError e
          · rw [if_pos hpg] at h
            exact absurd (show (Except.ok false : Except PyErr Bool) = Except.ok true from h)
              (by simp)
          · rw [if_neg hpg] at h
            exact Except.noConfusion
              (show (Except.error e : Except PyErr Bool) = Except.ok true from h)
        · rintro ⟨-, hE⟩
          exact absurd hE hnotall
      · intro _
        rw [hpush]
        show c2.committed = conn.committed
        rw [hcomm2, hcomm1]
      · intro e3 hpg hdisj
        rcases hdisj with h | ⟨-, h2⟩
        · exact Option.noConfusion (show (none : Option PyErr) = some e3 from h)
        · have h3 : (some e : Option PyErr) = some e3 := h2
          injection h3 with h4
          subst h4
          rw [hpush]
          simp [hpg]
    | none =>
      have hpush : db_push fail conn dfN dfE = (commit c2, Except.ok true) := by
        simp only [db_push, hn, he]
      have hEall : ∀ r ∈ dfE.rows, insertOk fail (edgeStmt dfE) r := by
        apply (pushLoop_none_iff fail (edgeStmt dfE) dfE.rows c1).1
        rw [he]
      refine ⟨?_, ?_, ?_⟩
      · rw [hpush]
        exact ⟨fun _ => ⟨hNall, hEall⟩, fun _ => rfl⟩
      · intro hne
        rw [hpush] at hne
        exact absurd rfl hne
      · intro e3 hpg hdisj
        rcases hdisj with h | ⟨-, h2⟩
        · exact Option.noConfusion (show (none : Option PyErr) = some e3 from h)
        · exact Option.noConfusion (show (none : Option PyErr) = some e3 from h2)

/-- C1 witness: a concrete run that does not return `True` (here the
edge insert raises) leaves nothing committed, so a subsequent read sees
no rows from the run. -/
theorem db_push_transactional_witness :
    readCommitted (db_push noFail conn0 exNodesDf exEdgesDf).1 = readCommitted conn0 :=
  (db_push_transactional noFail conn0 exNodesDf exEdgesDf).2.1 (by decide)

/-- C2 (code bug): contrary to the claim, `db_push` does raise to its
caller.  On a one-row edge table the edge insert statement — the
two-placeholder template bound against three parameters — raises
`TypeError`, which is not a `psycopg2.Error`, so it escapes the
`except psycopg2.Error` clause instead of becoming a `False` return. -/
theorem db_push_placeholder_mismatch_raises :
    db_push noFail conn0 exNodesDf exEdgesDf =
      (⟨[], [⟨insertNodeSql, ["A"]⟩]⟩,
       Except.error (PyErr.typeError "not all arguments converted during string formatting")) ∧
    isPgError (PyErr.typeError "not all arguments converted during string formatting") = false ∧
    countPlaceholders insertEdgeSql = 2 := by
  decide

/-- C3 counterexample: on the empty taxonomy input (`N = 0`, three
columns present) `gephi_restructure` returns a node table with 0 rows,
so the claimed lower bound of 1 node row fails. -/
theorem restructure_empty_input_below_lower_bound :
    gephi_restructure (mkTaxonomyDF []) =
      Except.ok (⟨["nodeLabel"], []⟩, ⟨["Source", "Target", "Type"], []⟩) ∧
    ¬ 1 ≤ ((⟨["nodeLabel"], []⟩ : DataFrame)).rows.length := by
  decide

/-- C3 (amended): for `N` taxonomy rows, `gephi_restructure` produces
exactly `2N` edge records and at most `3N` node rows, with exactly `3N`
node rows iff no value repeats across rows and columns; and at least 1
node row whenever `N ≥ 1`. -/
theorem restructure_cardinalities (rows : List TaxonomyRow) (nodes edges : DataFrame)
    (h : gephi_restructure (mkTaxonomyDF rows) = Except.ok (nodes, edges)) :
    edges.rows.length = 2 * rows.length ∧
    nodes.rows.length ≤ 3 * rows.length ∧
    (rows ≠ [] → 1 ≤ nodes.rows.length) ∧
    (nodes.rows.length = 3 * rows.length ↔ (allVals rows).Nodup) := by
  rw [gephi_restructure_mk rows] at h
  simp only [Except.ok.injEq, Prod.mk.injEq] at h
  obtain ⟨hnodes, hedges⟩ := h
  subst hnodes hedges
  refine ⟨length_flatMap_pairs rows, ?_, ?_, ?_⟩
  · show ((allVals rows).dedup.map fun x => [x]).length ≤ 3 * rows.length
    rw [List.length_map]
    calc (allVals rows).dedup.length
        ≤ (allVals rows).length := (List.dedup_sublist _).length_le
      _ = 3 * rows.length := allVals_length rows
  · intro hne
    obtain ⟨r, l, rfl⟩ := List.exists_cons_of_ne_nil hne
    show 1 ≤ ((allVals (r :: l)).dedup.map fun x => [x]).length
    rw [List.length_map]
    have hmem : r.subTopic ∈ (allVals (r :: l)).dedup := by
      rw [List.mem_dedup]
      simp [allVals]
    exact List.length_pos.2 (List.ne_nil_of_mem hmem)
  · show (((allVals rows).dedup.map fun x => [x]).length = 3 * rows.length) ↔ _
    rw [List.length_map]
    constructor
    · intro hlen
      have hed := (List.dedup_sublist (allVals rows)).eq_of_length
        (by rw [hlen, allVals_length])
      rw [← hed]
      exact List.nodup_dedup _
    · intro hnd
      rw [hnd.dedup, allVals_length]

/-- C3 witness: the amended bounds instantiated on the two-row worked
example (`N = 2`): 4 edges, 4 ≤ 6 node rows, at least one node row, and
4 ≠ 6 matches the repeated values. -/
theorem restructure_cardinalities_witness :
    exEdgesOut.rows.length = 2 * exRows.length ∧
    exNodesOut.rows.length ≤ 3 * exRows.length ∧
    (exRows ≠ [] → 1 ≤ exNodesOut.rows.length) ∧
    (exNodesOut.rows.length = 3 * exRows.length ↔ (allVals exRows).Nodup) :=
  restructure_cardinalities exRows exNodesOut exEdgesOut (by decide)

/-- C4: for any input whose three taxonomy columns are readable, the
node table carries the single column `nodeLabel`, its labels are
duplicate-free, and as a set they equal the union of the values of the
`SubTopic`, `Topic` and `MacroTopic` columns. -/
theorem restructure_node_set (df nodes edges : DataFrame) (sub top mac : List String)
    (hs : getCol df "SubTopic" = Except.ok sub)
    (ht : getCol df "Topic" = Except.ok top)
    (hm : getCol df "MacroTopic" = Except.ok mac)
    (h : gephi_restructure df = Except.ok (nodes, edges)) :
    nodes.cols = ["nodeLabel"] ∧ (labelsOf nodes).Nodup ∧
    (labelsOf nodes).toFinset = (sub ++ top ++ mac).toFinset := by
  unfold gephi_restructure at h
  simp only [hs, ht, hm, bindOk] at h
  cases he : edgeLoop df df.rows with
  | error e =>
    rw [he] at h
    exact Except.noConfusion
      (show (Except.error e : Except PyErr (DataFrame × DataFrame)) =
        Except.ok (nodes, edges) from h)
  | ok es =>
    rw [he, bindOk] at h
    simp only [Except.ok.injEq, Prod.mk.injEq] at h
    obtain ⟨hnodes, -⟩ := h
    subst hnodes
    have hl : labelsOf ⟨["nodeLabel"], (sub ++ top ++ mac).dedup.map fun x => [x]⟩ =
        (sub ++ top ++ mac).dedup := by
      show ((sub ++ top ++ mac).dedup.map fun x => [x]).map (fun r => r.getD 0 "") = _
      rw [List.map_map]
      exact List.map_id _
    refine ⟨rfl, ?_, ?_⟩
    · rw [hl]
      exact List.nodup_dedup _
    · rw [hl]
      ext x
      simp [List.mem_toFinset, List.mem_dedup]

/-- C4 witness: the node-set property instantiated on the worked
example: labels `A, D, B, C`, duplicate-free, equal as a set to the
union of the three columns. -/
theorem restructure_node_set_witness :
    exNodesOut.cols = ["nodeLabel"] ∧ (labelsOf exNodesOut).Nodup ∧
    (labelsOf exNodesOut).toFinset = (["A", "D"] ++ ["B", "B"] ++ ["C", "C"]).toFinset :=
  restructure_node_set (mkTaxonomyDF exRows) exNodesOut exEdgesOut
    ["A", "D"] ["B", "B"] ["C", "C"] (by decide) (by decide) (by decide) (by decide)

/-- C5: for every taxonomy input, the edge table appends per input row,
in input order, first `(MacroTopic, Topic)` and then
`(Topic, SubTopic)`, both typed `undirected`; on the spec's worked
example the edge table is exactly the four listed records with the
`(C, B)` duplicate preserved, and the node set is `{A, B, C, D}`. -/
theorem restructure_edge_generation :
    (∀ rows : List TaxonomyRow,
      gephi_restructure (mkTaxonomyDF rows) = Except.ok
        (⟨["nodeLabel"], (allVals rows).dedup.map fun x => [x]⟩,
         ⟨["Source", "Target", "Type"], rows.flatMap fun r =>
           [[r.macroTopic, r.topic, "undirected"], [r.topic, r.subTopic, "undirected"]]⟩)) ∧
    (gephi_restructure (mkTaxonomyDF exRows) = Except.ok (exNodesOut, exEdgesOut) ∧
     exEdgesOut.rows = [["C", "B", "undirected"], ["B", "A", "undirected"],
       ["C", "B", "undirected"], ["B", "D", "undirected"]] ∧
     (labelsOf exNodesOut).toFinset = {"A", "B", "C", "D"}) :=
  ⟨gephi_restructure_mk, by decide⟩

/-- C6 (code bug): when no rows match, `db_pull` builds
`pd.DataFrame([])`, a frame with no columns at all, and
`gephi_restructure` applied to it raises `KeyError('SubTopic')` at
`df['SubTopic']` instead of returning empty node and edge tables. -/
theorem empty_pull_raises_keyError :
    pullTriples exDb = [] ∧
    db_pull exDb = ⟨[], []⟩ ∧
    gephi_restructure (db_pull exDb) = Except.error (PyErr.keyError "SubTopic") := by
  decide

/-- C7: every row of the `db_pull` join result has all three status
flags equal to zero; in particular a joined row whose topic has
`Status = 1` is never produced, whatever the other two statuses are. -/
theorem pull_filters_inactive (db : Database) (s : SubRow) (t : TopicRow) (m : MacroRow) :
    ((s, t, m) ∈ pullTriples db →
      s.status = 0 ∧ t.status = 0 ∧ m.status = 0) ∧
    (t.status = 1 → (s, t, m) ∉ pullTriples db) := by
  constructor
  · intro h
    obtain ⟨-, -, -, -, -, h1, h2, h3⟩ := (mem_pullTriples db s t m).1 h
    exact ⟨h1, h2, h3⟩
  · intro ht h
    obtain ⟨-, -, -, -, -, -, h2, -⟩ := (mem_pullTriples db s t m).1 h
    rw [ht] at h2
    exact absurd h2 one_ne_zero

/-- C7 witness: in `exDb` the only candidate chain goes through the
retired topic (`Status = 1`), so its joined row is not in the result
even though subtopic and macrotopic are active. -/
theorem pull_filters_inactive_witness :
    ((⟨1, "sub", 1, 0⟩ : SubRow), (⟨1, "top", 1, 1⟩ : TopicRow),
      (⟨1, "mac", 0⟩ : MacroRow)) ∉ pullTriples exDb :=
  (pull_filters_inactive exDb ⟨1, "sub", 1, 0⟩ ⟨1, "top", 1, 1⟩ ⟨1, "mac", 0⟩).2 rfl

/-- C8: two runs of `gephi_restructure` on the same input produce node
tables of the same cardinality and the same label set. -/
theorem restructure_idempotent_nodes (df n1 e1 n2 e2 : DataFrame)
    (h1 : gephi_restructure df = Except.ok (n1, e1))
    (h2 : gephi_restructure df = Except.ok (n2, e2)) :
    (labelsOf n1).length = (labelsOf n2).length ∧
    (labelsOf n1).toFinset = (labelsOf n2).toFinset := by
  rw [h1] at h2
  simp only [Except.ok.injEq, Prod.mk.injEq] at h2
  obtain ⟨hn, -⟩ := h2
  rw [hn]
  exact ⟨rfl, rfl⟩

/-- C8 witness: the idempotence property instantiated on the worked
example. -/
theorem restructure_idempotent_nodes_witness :
    (labelsOf exNodesOut).length = (labelsOf exNodesOut).length ∧
    (labelsOf exNodesOut).toFinset = (labelsOf exNodesOut).toFinset :=
  restructure_idempotent_nodes (mkTaxonomyDF exRows) exNodesOut exEdgesOut
    exNodesOut exEdgesOut (by decide) (by decide)

/-- C9: with a configuration supplying all five keys, `db_connect`
returns the open connection when `psycopg2.connect` succeeds, returns
`None` (after printing a diagnostic) when it raises a connectivity
error, and in either case raises no exception to the caller. -/
theorem db_connect_reports_failure
    (connect : String → String → String → String → String → Except String Nat)
    (params : List (String × String)) (host port dbname user password : String)
    (h1 : params.lookup "ENDPOINT" = some host)
    (h2 : params.lookup "PORT" = some port)
    (h3 : params.lookup "DBNAME" = some dbname)
    (h4 : params.lookup "USER" = some user)
    (h5 : params.lookup "PASSWORD" = some password) :
    (∀ c, connect host port dbname user password = Except.ok c →
      db_connect connect params = Except.ok (some c)) ∧
    (∀ msg, connect host port dbname user password = Except.error msg →
      db_connect connect params = Except.ok none) ∧
    (∃ v, db_connect connect params = Except.ok v) := by
  refine ⟨?_, ?_, ?_⟩
  · intro c hc
    simp only [db_connect, h1, h2, h3, h4, h5, hc]
  · intro msg hc
    simp only [db_connect, h1, h2, h3, h4, h5, hc]
  · cases hc : connect host port dbname user password with
    | ok c => exact ⟨some c, by simp only [db_connect, h1, h2, h3, h4, h5, hc]⟩
    | error msg => exact ⟨none, by simp only [db_connect, h1, h2, h3, h4, h5, hc]⟩

/-- C9 witness: a succeeding and a refused `psycopg2.connect` on a full
configuration: handle returned, respectively `None` returned — no
exception either way. -/
theorem db_connect_reports_failure_witness :
    db_connect connectOk exParams = Except.ok (some 1) ∧
    db_connect connectRefused exParams = Except.ok none :=
  ⟨(db_connect_reports_failure connectOk exParams "h" "5432" "db" "u" "p"
      rfl rfl rfl rfl rfl).1 1 rfl,
   (db_connect_reports_failure connectRefused exParams "h" "5432" "db" "u" "p"
      rfl rfl rfl rfl rfl).2.1 "connection refused" rfl⟩

/-- C10: a configuration missing one of the five required keys makes
`db_connect` raise `KeyError` for the first missing key (in the
evaluation order of the five subscripts), which propagates to the
caller — `except psycopg2.Error` does not catch it. -/
theorem db_connect_missing_key_raises
    (connect : String → String → String → String → String → Except String Nat)
    (params : List (String × String)) :
    (params.lookup "ENDPOINT" = none →
      db_connect connect params = Except.error (PyErr.keyError "ENDPOINT")) ∧
    (∀ host, params.lookup "ENDPOINT" = some host →
      params.lookup "PORT" = none →
      db_connect connect params = Except.error (PyErr.keyError "PORT")) ∧
    (∀ host port, params.lookup "ENDPOINT" = some host →
      params.lookup "PORT" = some port →
      params.lookup "DBNAME" = none →
      db_connect connect params = Except.error (PyErr.keyError "DBNAME")) ∧
    (∀ host port dbname, params.lookup "ENDPOINT" = some host →
      params.lookup "PORT" = some port →
      params.lookup "DBNAME" = some dbname →
      params.lookup "USER" = none →
      db_connect connect params = Except.error (PyErr.keyError "USER")) ∧
    (∀ host port dbname user, params.lookup "ENDPOINT" = some host →
      params.lookup "PORT" = some port →
      params.lookup "DBNAME" = some dbname →
      params.lookup "USER" = some user →
      params.lookup "PASSWORD" = none →
      db_connect connect params = Except.error (PyErr.keyError "PASSWORD")) := by
  refine ⟨?_, ?_, ?_, ?_, ?_⟩ <;> intros <;> simp only [db_connect, *]

/-- C10 witness: the empty configuration raises `KeyError('ENDPOINT')`. -/
theorem db_connect_missing_key_raises_witness :
    db_connect connectOk [] = Except.error (PyErr.keyError "ENDPOINT") :=
  (db_connect_missing_key_raises connectOk []).1 rfl

end Gephi
